import Mathlib

/-!
# Verification of the asynchronous image-transformation pipeline

A shallow embedding, in Lean 4, of the core of the image-processing service:
the cache-key generator and cache accessors (`utils/utils.py`) and the
Celery task orchestrator together with the transform functions
(`image_processor/tasks.py`).

Modelling conventions:
* Python functions that may raise are embedded as `Except PyErr`-valued
  functions; `raise X` becomes `.error x`.
* The Django ORM, the Celery queue, the cache store and the PIL codec layer
  are external collaborators.  Their behaviour at the interface consumed by
  the embedded code is modelled explicitly (an `Env` record supplies each
  collaborator call outcome; PIL primitives are modelled at the
  width x height x colour-mode level, which is the granularity the
  orchestration logic observes).
* Machine-level details irrelevant to the claims (timestamps, owners, file
  names, byte buffers) are dropped from the records.
* `hashlib.sha256(...).hexdigest()` is embedded as a full executable SHA-256
  over the UTF-8 bytes of the key string.
* `json.dumps(x, sort_keys=True)` is embedded for the value shape that the
  task model actually stores (a list of transformation steps, each a dict
  with an operation name and a flat scalar parameter map, cf. the data
  model): Python default separators, sorted keys, `ensure_ascii` escaping.
-/

set_option maxRecDepth 100000

namespace IPS

/-! ## Scalars and transformation steps (the JSON data model) -/

/-- A JSON-scalar parameter value as stored in a transformation step's
`params` map.  `obj` stands for a Python object that `json.dumps` cannot
serialize (it raises `TypeError` on it). -/
inductive Scalar where
  | str (s : String)
  | int (n : Int)
  | bool (b : Bool)
  | null
  | obj
deriving DecidableEq, Repr

/-- One element of a task's `transformations` JSON list:
`\x7b"operation": <name>, "params": <map>\x7d` (`params` defaults to the
empty map when absent, as in `transformation.get("params", \x7b\x7d)`). -/
structure Step where
  operation : String
  params : List (String × Scalar)
deriving DecidableEq, Repr

/-- Decidable equality for `Except` results (used to evaluate runs on
concrete inputs). -/
def exceptDecEq {ε α : Type} [DecidableEq ε] [DecidableEq α] :
    (a b : Except ε α) → Decidable (a = b)
  | .error e, .error f =>
    if h : e = f then .isTrue (by rw [h])
    else .isFalse (by intro hh; cases hh; exact h rfl)
  | .error _, .ok _ => .isFalse (by intro h; cases h)
  | .ok _, .error _ => .isFalse (by intro h; cases h)
  | .ok a, .ok b =>
    if h : a = b then .isTrue (by rw [h])
    else .isFalse (by intro hh; cases hh; exact h rfl)

instance {ε α : Type} [DecidableEq ε] [DecidableEq α] : DecidableEq (Except ε α) :=
  exceptDecEq

/-! ## `json.dumps(..., sort_keys=True)` for the stored shape -/

/-- Lower-case hex digit. -/
def hexDigit (n : Nat) : Char :=
  if n < 10 then Char.ofNat (48 + n) else Char.ofNat (87 + n)

/-- Four hex digits (for `\uXXXX` escapes and for the digest). -/
def hex4 (n : Nat) : List Char :=
  [hexDigit ((n >>> 12) &&& 15), hexDigit ((n >>> 8) &&& 15),
   hexDigit ((n >>> 4) &&& 15), hexDigit (n &&& 15)]

/-- Python `json` escaping of one character (`ensure_ascii=True` default):
`\"`, `\\`, the short control escapes, `\uXXXX` for other control and
non-ASCII characters (surrogate pairs above the BMP). -/
def jsonEscapeChar (c : Char) : List Char :=
  if c = Char.ofNat 34 then [Char.ofNat 92, Char.ofNat 34]
  else if c = Char.ofNat 92 then [Char.ofNat 92, Char.ofNat 92]
  else if c = Char.ofNat 10 then [Char.ofNat 92, Char.ofNat 110]
  else if c = Char.ofNat 13 then [Char.ofNat 92, Char.ofNat 114]
  else if c = Char.ofNat 9 then [Char.ofNat 92, Char.ofNat 116]
  else if c = Char.ofNat 8 then [Char.ofNat 92, Char.ofNat 98]
  else if c = Char.ofNat 12 then [Char.ofNat 92, Char.ofNat 102]
  else if c.toNat < 32 ∨ 126 < c.toNat then
    if c.toNat < 65536 then Char.ofNat 92 :: Char.ofNat 117 :: hex4 c.toNat
    else
      let v := c.toNat - 65536
      (Char.ofNat 92 :: Char.ofNat 117 :: hex4 (55296 + (v >>> 10))) ++
        (Char.ofNat 92 :: Char.ofNat 117 :: hex4 (56320 + (v &&& 1023)))
  else [c]

/-- A JSON string literal: quoted, escaped. -/
def jsonQuote (s : String) : String :=
  String.mk (Char.ofNat 34 :: (s.data.map jsonEscapeChar).flatten ++ [Char.ofNat 34])

/-- Serialization of one scalar; `none` models the `TypeError` that
`json.dumps` raises on a non-serializable object. -/
def jsonScalar : Scalar → Option String
  | .str s => some (jsonQuote s)
  | .int n => some (toString n)
  | .bool b => some (if b then "true" else "false")
  | .null => some "null"
  | .obj => none

/-- Strict lexicographic order on code-point lists (how Python compares
strings). -/
def lexLt : List Nat → List Nat → Bool
  | [], [] => false
  | [], _ :: _ => true
  | _ :: _, [] => false
  | a :: as, b :: bs => if a < b then true else if b < a then false else lexLt as bs

/-- The code points of a string. -/
def codes (s : String) : List Nat := s.data.map Char.toNat

/-- Python `s <= t` on strings (code-point lexicographic). -/
def keyLe (s t : String) : Bool := ! lexLt (codes t) (codes s)

/-- Insert a key-value pair into a key-sorted pair list, before any entry of
an equal key (stable). -/
def insertSorted (p : String × Scalar) : List (String × Scalar) → List (String × Scalar)
  | [] => [p]
  | q :: qs => if keyLe p.1 q.1 then p :: q :: qs else q :: insertSorted p qs

/-- What `sort_keys=True` does to a dict: its items listed in ascending key
order (Python dict keys are unique, so stability questions do not arise). -/
def sortKvs : List (String × Scalar) → List (String × Scalar)
  | [] => []
  | p :: ps => insertSorted p (sortKvs ps)

/-- Serialize the members of a dict, in the order given, failing if any value
is non-serializable. -/
def serializeKvs : List (String × Scalar) → Option (List String)
  | [] => some []
  | (k, v) :: rest =>
    match jsonScalar v, serializeKvs rest with
    | some vs, some tail => some ((jsonQuote k ++ ": " ++ vs) :: tail)
    | _, _ => none

/-- `json.dumps(params, sort_keys=True)` for a flat scalar map, default
separators. -/
def serializeParams (kvs : List (String × Scalar)) : Option String :=
  (serializeKvs (sortKvs kvs)).map
    (fun ss => "\x7b" ++ String.intercalate ", " ss ++ "\x7d")

/-- `json.dumps` of one step dict; its two keys already appear in sorted
order (`"operation" < "params"`). -/
def serializeStep (s : Step) : Option String :=
  (serializeParams s.params).map
    (fun ps =>
      "\x7b" ++ jsonQuote "operation" ++ ": " ++ jsonQuote s.operation ++ ", " ++
        jsonQuote "params" ++ ": " ++ ps ++ "\x7d")

/-- Serialize every step, failing if any fails. -/
def serializeSteps : List Step → Option (List String)
  | [] => some []
  | s :: rest =>
    match serializeStep s, serializeSteps rest with
    | some ss, some tail => some (ss :: tail)
    | _, _ => none

/-- `json.dumps(transformations, sort_keys=True)` for the stored list of
steps. -/
def serializeTransformations (ts : List Step) : Option String :=
  (serializeSteps ts).map (fun ss => "[" ++ String.intercalate ", " ss ++ "]")

/-! ## SHA-256 over a byte list (hashlib.sha256(...).hexdigest()) -/

/-- 2^32. -/
def M32 : Nat := 4294967296

/-- 32-bit right rotation. -/
def rotr32 (n x : Nat) : Nat := ((x >>> n) ||| (x <<< (32 - n))) % M32

/-- 32-bit bitwise complement. -/
def not32 (x : Nat) : Nat := 4294967295 ^^^ x

/-- The SHA-256 round constants (FIPS 180-4, written in decimal). -/
def K256 : List Nat :=
  [1116352408, 1899447441, 3049323471, 3921009573, 961987163,
   1508970993, 2453635748, 2870763221, 3624381080, 310598401,
   607225278, 1426881987, 1925078388, 2162078206, 2614888103,
   3248222580, 3835390401, 4022224774, 264347078, 604807628,
   770255983, 1249150122, 1555081692, 1996064986, 2554220882,
   2821834349, 2952996808, 3210313671, 3336571891, 3584528711,
   113926993, 338241895, 666307205, 773529912, 1294757372,
   1396182291, 1695183700, 1986661051, 2177026350, 2456956037,
   2730485921, 2820302411, 3259730800, 3345764771, 3516065817,
   3600352804, 4094571909, 275423344, 430227734, 506948616,
   659060556, 883997877, 958139571, 1322822218, 1537002063,
   1747873779, 1955562222, 2024104815, 2227730452, 2361852424,
   2428436474, 2756734187, 3204031479, 3329325298]

/-- The SHA-256 initial hash value (FIPS 180-4, written in decimal). -/
def IV256 : List Nat :=
  [1779033703, 3144134277, 1013904242, 2773480762,
   1359893119, 2600822924, 528734635, 1541459225]

/-- Big-endian 8-byte encoding of the bit length. -/
def lenBytes8 (n : Nat) : List Nat :=
  [(n >>> 56) % 256, (n >>> 48) % 256, (n >>> 40) % 256, (n >>> 32) % 256,
   (n >>> 24) % 256, (n >>> 16) % 256, (n >>> 8) % 256, n % 256]

/-- SHA-256 padding: append 0x80, zero bytes to 56 mod 64, then the
bit-length. -/
def padBytes (msg : List Nat) : List Nat :=
  msg ++ 128 :: List.replicate ((119 - (msg.length % 64)) % 64) 0 ++
    lenBytes8 (8 * msg.length)

/-- Group big-endian bytes into 32-bit words (`fuel` bounds the recursion). -/
def toWords : Nat → List Nat → List Nat
  | 0, _ => []
  | fuel + 1, b0 :: b1 :: b2 :: b3 :: rest =>
    (b0 * 16777216 + b1 * 65536 + b2 * 256 + b3) :: toWords fuel rest
  | _ + 1, _ => []

/-- Split a byte list into 64-byte blocks. -/
def toBlocks : Nat → List Nat → List (List Nat)
  | 0, _ => []
  | _ + 1, [] => []
  | fuel + 1, bs => bs.take 64 :: toBlocks fuel (bs.drop 64)

/-- Extend the message schedule.  The accumulator is kept reversed (most
recent word first), so the words at offsets 2, 7, 15 and 16 are at list
positions 1, 6, 14 and 15. -/
def extendW : Nat → List Nat → List Nat
  | 0, wrev => wrev
  | fuel + 1, wrev =>
    let w15 := wrev.getD 14 0
    let w2 := wrev.getD 1 0
    let w7 := wrev.getD 6 0
    let w16 := wrev.getD 15 0
    let s0 := (rotr32 7 w15) ^^^ (rotr32 18 w15) ^^^ (w15 >>> 3)
    let s1 := (rotr32 17 w2) ^^^ (rotr32 19 w2) ^^^ (w2 >>> 10)
    extendW fuel (((w16 + s0 + w7 + s1) % M32) :: wrev)

/-- One SHA-256 compression round on the eight-word state. -/
def round256 (st : List Nat) (kw : Nat × Nat) : List Nat :=
  match st with
  | [a, b, c, d, e, f, g, h] =>
    let S1 := (rotr32 6 e) ^^^ (rotr32 11 e) ^^^ (rotr32 25 e)
    let ch := (e &&& f) ^^^ (not32 e &&& g)
    let temp1 := (h + S1 + ch + kw.1 + kw.2) % M32
    let S0 := (rotr32 2 a) ^^^ (rotr32 13 a) ^^^ (rotr32 22 a)
    let maj := (a &&& b) ^^^ (a &&& c) ^^^ (b &&& c)
    let temp2 := (S0 + maj) % M32
    [(temp1 + temp2) % M32, a, b, c, (d + temp1) % M32, e, f, g]
  | _ => st

/-- Compress one 64-byte block into the running hash state. -/
def compressBlock (h : List Nat) (block : List Nat) : List Nat :=
  let w := (extendW 48 (toWords 16 block).reverse).reverse
  let s := (K256.zip w).foldl round256 h
  (h.zip s).map (fun p => (p.1 + p.2) % M32)

/-- SHA-256 of a byte list, as eight 32-bit words. -/
def sha256words (msg : List Nat) : List Nat :=
  (toBlocks (padBytes msg).length (padBytes msg)).foldl compressBlock IV256

/-- One word as eight lower-case hex digits. -/
def wordHex8 (w : Nat) : List Char := hex4 (w >>> 16) ++ hex4 (w &&& 65535)

/-- `hashlib.sha256(bytes).hexdigest()`. -/
def sha256hex (msg : List Nat) : String :=
  String.mk ((sha256words msg).map wordHex8).flatten

/-- UTF-8 encoding of one code point. -/
def utf8EncodeChar (c : Nat) : List Nat :=
  if c < 128 then [c]
  else if c < 2048 then [192 ||| (c >>> 6), 128 ||| (c &&& 63)]
  else if c < 65536 then
    [224 ||| (c >>> 12), 128 ||| ((c >>> 6) &&& 63), 128 ||| (c &&& 63)]
  else
    [240 ||| (c >>> 18), 128 ||| ((c >>> 12) &&& 63),
     128 ||| ((c >>> 6) &&& 63), 128 ||| (c &&& 63)]

/-- `str.encode("utf-8")` as a byte list. -/
def utf8Bytes (s : String) : List Nat :=
  (s.data.map (fun c => utf8EncodeChar c.toNat)).flatten

/-- `str.lower()` for one character (ASCII range; format names are ASCII). -/
def charLower (c : Char) : Char :=
  if 65 ≤ c.toNat ∧ c.toNat ≤ 90 then Char.ofNat (c.toNat + 32) else c

/-- `str.lower()`. -/
def strLower (s : String) : String := String.mk (s.data.map charLower)

/-! ## The cache-key generator (utils/utils.py) -/

/-- `generate_transformation_cache_key(source_image_id, transformations,
image_format)`: canonical JSON of the transformation list (`sort_keys=True`),
the format lower-cased with every falsy value (Python `None` or `""`)
replaced by the literal string `"None"`, all joined with underscores and
hashed with SHA-256; a serialization `TypeError` yields no key. -/
def generate_transformation_cache_key (source_image_id : String)
    (transformations : List Step) (image_format : Option String) : Option String :=
  match serializeTransformations transformations with
  | none => none
  | some transformations_str =>
    let format_str :=
      match image_format with
      | none => "None"
      | some f => if f = "" then "None" else strLower f
    let key_data := source_image_id ++ "_" ++ transformations_str ++ "_" ++ format_str
    some (sha256hex (utf8Bytes key_data))

/-! ## Exceptions

Python exceptions reaching the orchestrator, as a value type.  Each
constructor carries the structured content of the message (exact f-string
texts are abstracted to the data they interpolate); `errStr` plays the role
of `str(e)`. -/

inductive PyErr where
  | taskNotFound
  | noTransformationsDefined
  | originalImageNotFound (detail : String)
  | invalidTransformation (operation : String)
  | transformationFailed (detail : String)
  | typeError (detail : String)
  | valueError (detail : String)
  | attributeError (detail : String)
  | cacheBackendError
  | encodeError (detail : String)
  | metadataExtractionError
deriving DecidableEq, Repr

/-- `str(e)`: the human-readable description recorded into
`task.error_message` by the top-level handler.  For the APIException
subclasses this is the default detail of `api/exceptions.py`. -/
def errStr : PyErr → String
  | .taskNotFound => "The requested transformation task was not found."
  | .noTransformationsDefined => "No transformations were defined for this task."
  | .originalImageNotFound d => d
  | .invalidTransformation op => "Invalid operation: " ++ op
  | .transformationFailed d => "Error applying transformation: " ++ d
  | .typeError d => d
  | .valueError d => d
  | .attributeError d => d
  | .cacheBackendError => "cache backend failure"
  | .encodeError d => d
  | .metadataExtractionError => "Missing image metadata"

/-! ## Bitmaps and the PIL collaborator model

The spec treats codec operations as pure functions over an in-memory bitmap;
the orchestration logic observes only dimensions and colour mode, so the
PIL primitives called by `tasks.py` are modelled at that level. -/

/-- Pixel modes used by the pipeline. -/
inductive Mode where
  | RGB
  | RGBA
  | L
deriving DecidableEq, Repr

/-- An in-memory decoded image at the granularity the orchestrator
observes. -/
structure Bitmap where
  width : Nat
  height : Nat
  mode : Mode
deriving DecidableEq, Repr

/-- `Image.crop(box)`: rejects a reversed box, otherwise yields an image of
exactly the box size (out-of-bounds regions are padded, not an error). -/
def PILcrop (image : Bitmap) (left upper right lower : Int) : Except PyErr Bitmap :=
  if right < left then .error (.valueError "Coordinate right is less than left")
  else if lower < upper then .error (.valueError "Coordinate lower is less than upper")
  else .ok ⟨(right - left).toNat, (lower - upper).toNat, image.mode⟩

/-- `Image.rotate(angle)` with the default `expand=False`: the output canvas
keeps the input size and mode for every angle (content falling outside the
canvas is cut off). -/
def PILrotate (image : Bitmap) (_degrees : Int) : Bitmap := image

/-- `Image.resize((w, h))`: negative sizes are rejected. -/
def PILresize (image : Bitmap) (w h : Int) : Except PyErr Bitmap :=
  if w < 0 ∨ h < 0 then
    .error (.valueError "Width and height must be greater than or equal to 0")
  else .ok ⟨w.toNat, h.toNat, image.mode⟩

/-- `Image.new(mode, size)`. -/
def PILnew (mode : Mode) (w h : Nat) : Bitmap := ⟨w, h, mode⟩

/-- `Image.alpha_composite(im1, im2)`: both images must be RGBA and of equal
size. -/
def PILalphaComposite (im1 im2 : Bitmap) : Except PyErr Bitmap :=
  if im1.mode ≠ .RGBA ∨ im2.mode ≠ .RGBA then
    .error (.valueError "image has wrong mode")
  else if im1.width ≠ im2.width ∨ im1.height ≠ im2.height then
    .error (.valueError "images do not match")
  else .ok ⟨im1.width, im1.height, .RGBA⟩

/-- `Image.convert(mode)`. -/
def PILconvert (image : Bitmap) (m : Mode) : Bitmap := ⟨image.width, image.height, m⟩

/-- `ImageOps.flip` (vertical reflection: size and mode preserved). -/
def PILflip (image : Bitmap) : Bitmap := image

/-- `ImageOps.mirror` (horizontal reflection: size and mode preserved). -/
def PILmirror (image : Bitmap) : Bitmap := image

/-- `Image.filter(ImageFilter.GaussianBlur)` (size and mode preserved). -/
def PILgaussianBlur (image : Bitmap) : Bitmap := image

/-- Formats the PIL encoder knows (`image.save(buffer, format=...)` raises a
`KeyError` on anything else). -/
def KNOWN_FORMATS : List String := ["JPEG", "PNG", "GIF", "BMP", "WEBP", "TIFF"]

/-- `str.upper()` for one ASCII character. -/
def charUpper (c : Char) : Char :=
  if 97 ≤ c.toNat ∧ c.toNat ≤ 122 then Char.ofNat (c.toNat - 32) else c

/-- `str.upper()`. -/
def strUpper (s : String) : String := String.mk (s.data.map charUpper)

/-- Encoding a bitmap to a target format: unknown formats fail, and the JPEG
encoder cannot write an image that still has an alpha channel. -/
def encodeResult (mode : Mode) (image_format : String) : Except PyErr Unit :=
  if ¬ KNOWN_FORMATS.contains (strUpper image_format) then
    .error (.encodeError ("unknown file extension: " ++ image_format))
  else if strUpper image_format = "JPEG" ∧ mode = .RGBA then
    .error (.encodeError "cannot write mode RGBA as JPEG")
  else .ok ()

/-! ## Transform functions (image_processor/tasks.py) -/

/-- `crop(image, x, y, width, height)`: the source guard rejects a box whose
right or lower edge exceeds the source bounds, then delegates to
`image.crop((x, y, x + width, y + height))`. -/
def crop (image : Bitmap) (x y width height : Int) : Except PyErr Bitmap :=
  if x + width > (image.width : Int) ∨ y + height > (image.height : Int) then
    .error (.valueError "Invalid dimensions for cropping.")
  else PILcrop image x y (x + width) (y + height)

/-- `resize(image, width, height)`. -/
def resize (image : Bitmap) (width height : Int) : Except PyErr Bitmap :=
  PILresize image width height

/-- `rotate(image, degrees)`: `image.rotate(angle=degrees)` with the default
`expand=False`. -/
def rotate (image : Bitmap) (degrees : Int) : Bitmap := PILrotate image degrees

/-- `watermark(image, watermark_text)`: rejects empty text, builds an RGBA
text layer of the image size, rotates it in place, and alpha-composites it
over the source (which `Image.alpha_composite` requires to be RGBA). -/
def watermark (image : Bitmap) (watermark_text : String) : Except PyErr Bitmap :=
  if watermark_text = "" then .error (.valueError "Watermark text cannot be empty.")
  else
    let watermark_image := PILnew .RGBA image.width image.height
    let watermark_image := PILrotate watermark_image 45
    PILalphaComposite image watermark_image

/-- `flip(image)`. -/
def flip (image : Bitmap) : Bitmap := PILflip image

/-- `mirror(image)`. -/
def mirror (image : Bitmap) : Bitmap := PILmirror image

/-- `grayscale(image)`: `image.convert("L")`. -/
def grayscale (image : Bitmap) : Bitmap := PILconvert image .L

/-- `sepia(image)`: converts to RGB if needed, then applies the RGB matrix
(an RGB-to-RGB conversion). -/
def sepia (image : Bitmap) : Bitmap :=
  let image := if image.mode ≠ .RGB then PILconvert image .RGB else image
  PILconvert image .RGB

/-- `blur(image)`. -/
def blur (image : Bitmap) : Bitmap := PILgaussianBlur image

/-- `AVAILABLE_FILTERS.get(name)`: the three registered filters. -/
def availableFilter (name : String) (image : Bitmap) : Option Bitmap :=
  if name = "BLUR" then some (blur image)
  else if name = "GRAYSCALE" then some (grayscale image)
  else if name = "SEPIA" then some (sepia image)
  else none

/-- `apply_filter(image, **kwargs)`: applies each named filter in kwargs
iteration order (the parameter value is never consulted); an unknown filter
name raises `InvalidTransformation`. -/
def apply_filter (image : Bitmap) : List (String × Scalar) → Except PyErr Bitmap
  | [] => .ok image
  | (filter_name, _) :: rest =>
    match availableFilter (strUpper filter_name) image with
    | some filtered => apply_filter filtered rest
    | none => .error (.invalidTransformation filter_name)

/-! ## Operation dispatch (`TRANSFORMATION_MAP` and `**params` binding) -/

/-- The keys of `TRANSFORMATION_MAP`. -/
def TRANSFORMATION_MAP_keys : List String :=
  ["crop", "resize", "rotate", "watermark", "flip", "mirror", "apply_filter"]

/-- Reading one integer keyword argument (Python `bool` is an `int`). -/
def lookupInt (params : List (String × Scalar)) (name : String) : Option Int :=
  match params.lookup name with
  | some (.int n) => some n
  | some (.bool b) => some (if b then 1 else 0)
  | _ => none

/-- Python keyword binding for a fixed signature: the supplied names must be
exactly the declared ones (a missing or unexpected keyword raises
`TypeError` at the call). -/
def bindsExactly (params : List (String × Scalar)) (names : List String) : Bool :=
  names.all (fun n => (params.map Prod.fst).contains n) &&
    (params.map Prod.fst).all (fun k => names.contains k)

/-- `transform_func(processed_image, **params)`: keyword binding plus the
body of the looked-up transform function.  Binding failures and in-body
type errors both surface as exceptions from the call (the loop wraps every
exception of the call uniformly). -/
def callTransformFunc (operation : String) (image : Bitmap)
    (params : List (String × Scalar)) : Except PyErr Bitmap :=
  if operation = "crop" then
    if bindsExactly params ["x", "y", "width", "height"] then
      match lookupInt params "x", lookupInt params "y",
          lookupInt params "width", lookupInt params "height" with
      | some x, some y, some w, some h => crop image x y w h
      | _, _, _, _ => .error (.typeError "unsupported operand type for crop")
    else .error (.typeError "unexpected or missing keyword argument for crop")
  else if operation = "resize" then
    if bindsExactly params ["width", "height"] then
      match lookupInt params "width", lookupInt params "height" with
      | some w, some h => resize image w h
      | _, _ => .error (.typeError "unsupported operand type for resize")
    else .error (.typeError "unexpected or missing keyword argument for resize")
  else if operation = "rotate" then
    if bindsExactly params ["degrees"] then
      match lookupInt params "degrees" with
      | some d => .ok (rotate image d)
      | none => .error (.typeError "unsupported operand type for rotate")
    else .error (.typeError "unexpected or missing keyword argument for rotate")
  else if operation = "watermark" then
    if bindsExactly params ["watermark_text"] then
      match params.lookup "watermark_text" with
      | some (.str text) => watermark image text
      | _ => .error (.typeError "watermark text must be a string")
    else .error (.typeError "unexpected or missing keyword argument for watermark")
  else if operation = "flip" then
    if bindsExactly params [] then .ok (flip image)
    else .error (.typeError "unexpected keyword argument for flip")
  else if operation = "mirror" then
    if bindsExactly params [] then .ok (mirror image)
    else .error (.typeError "unexpected keyword argument for mirror")
  else if operation = "apply_filter" then
    apply_filter image params
  else .error (.typeError "not callable")

/-! ## Task records and collaborator environment -/

/-- `TaskStatus` (api/models.py). -/
inductive TaskStatus where
  | pending
  | in_progress
  | success
  | failed
  | cancelled
deriving DecidableEq, Repr

/-- A `SourceImage` row, restricted to the attributes the pipeline reads:
its primary key, the decoded bitmap behind `Image.open(file)` (`none` when
opening/decoding raises), and the JSON `metadata`. -/
structure SourceImage where
  id : Nat
  bitmap : Option Bitmap
  metadata : Option (List (String × Scalar))
deriving DecidableEq, Repr

/-- A `TransformationTask` row, restricted to the attributes the pipeline
reads or writes.  `result_image` holds the primary key of the linked
`TransformedImage`. -/
structure Task where
  original_image : Option SourceImage
  result_image : Option Nat
  status : TaskStatus
  transformations : List Step
  format : Option String
  error_message : Option String
deriving DecidableEq, Repr

/-- Behaviour of the single `cache.get` a run performs: a returned value
(`none` for a miss) or a raised backend error. -/
inductive CacheGetOutcome where
  | value (v : Option Nat)
  | raise
deriving DecidableEq, Repr

/-- Behaviour of the single `cache.set` a run performs. -/
inductive CacheSetOutcome where
  | ok
  | raise
deriving DecidableEq, Repr

/-- The collaborator world one `apply_transformations(task_id)` run sees:
the task row the id resolves to (persistence), the cache behaviours, and
the primary key the database will assign to a created `TransformedImage`. -/
structure Env where
  task : Option Task
  cacheGet : CacheGetOutcome
  cacheSet : CacheSetOutcome
  newImageId : Nat
deriving DecidableEq, Repr

/-! ## Cache accessors (utils/utils.py) -/

/-- `get_transformed_image_id_from_cache`: generate the key (no key: return
`None`); then `cache.get(cache_key)` — NOT guarded by any `try`, so a
backend error propagates; a falsy cached value is a miss. -/
def get_transformed_image_id_from_cache (outcome : CacheGetOutcome)
    (source_image_id : String) (transformations : List Step)
    (image_format : Option String) : Except PyErr (Option Nat) :=
  match generate_transformation_cache_key source_image_id transformations image_format with
  | none => .ok none
  | some _cache_key =>
    match outcome with
    | .raise => .error .cacheBackendError
    | .value none => .ok none
    | .value (some transformed_image_id) =>
      if transformed_image_id ≠ 0 then .ok (some transformed_image_id) else .ok none

/-- `set_transformed_image_id_to_cache`: generate the key (no key: log and
return); `cache.set` is wrapped in `try/except Exception`, so a backend
error is swallowed. -/
def set_transformed_image_id_to_cache (outcome : CacheSetOutcome)
    (source_image_id : String) (transformations : List Step)
    (image_format : Option String) (_transformed_image_id : Nat) :
    Except PyErr Unit :=
  match generate_transformation_cache_key source_image_id transformations image_format with
  | none => .ok ()
  | some _cache_key =>
    match outcome with
    | .ok => .ok ()
    | .raise => .ok ()

/-! ## The pipeline helpers (image_processor/tasks.py) -/

/-- `extract_metadata(image)` on the freshly saved result (whose `format`
attribute was just set to `image_format`): any falsy required attribute
raises `MetadataExtractionError`. -/
def extract_metadata (image_format : String) (image : Bitmap) :
    Except PyErr (List (String × Scalar)) :=
  if image_format = "" ∨ image.width = 0 ∨ image.height = 0 then
    .error .metadataExtractionError
  else
    .ok [("format", .str image_format),
         ("mode", .str (match image.mode with | .RGB => "RGB" | .RGBA => "RGBA" | .L => "L")),
         ("width", .int image.width), ("height", .int image.height)]

/-- `metadata.get("format")` with Python truthiness (non-string values do
not occur: metadata rows are written by `extract_metadata`). -/
def metadataFormat (md : List (String × Scalar)) : Option String :=
  match md.lookup "format" with
  | some (.str f) => if f = "" then none else some f
  | _ => none

/-- `_load_image_and_determine_format(task)`: resolve the source image, open
its file, and resolve the output format (explicit task format first — note
`if image_format is None`, so an empty-string task format is kept — then
the source metadata). -/
def _load_image_and_determine_format (task : Task) :
    Except PyErr (Bitmap × String × SourceImage) :=
  match task.original_image with
  | none => .error (.originalImageNotFound "Original image for task not found.")
  | some source_image_instance =>
    match source_image_instance.bitmap with
    | none => .error (.valueError "cannot identify image file")
    | some processed_image =>
      match task.format with
      | some image_format => .ok (processed_image, image_format, source_image_instance)
      | none =>
        match source_image_instance.metadata with
        | none => .error (.originalImageNotFound "Metadata not found for task. Format not found.")
        | some md =>
          match metadataFormat md with
          | none => .error (.originalImageNotFound "Format not found in metadata for task.")
          | some image_format => .ok (processed_image, image_format, source_image_instance)

/-- The step loop of `_apply_processing_steps`: validate each operation
against `TRANSFORMATION_MAP` as it is reached, then call the transform
function (any exception from the call is wrapped in
`TransformationFailed`).  The first component records the operations whose
transform function was invoked, in order. -/
def processingLoop (processed_image : Bitmap) :
    List Step → List String × Except PyErr Bitmap
  | [] => ([], .ok processed_image)
  | step :: rest =>
    if TRANSFORMATION_MAP_keys.contains step.operation then
      match callTransformFunc step.operation processed_image step.params with
      | .error e => ([step.operation], .error (.transformationFailed (errStr e)))
      | .ok image =>
        let r := processingLoop image rest
        (step.operation :: r.1, r.2)
    else ([], .error (.invalidTransformation step.operation))

/-- `_apply_processing_steps(processed_image, task, image_format)`: empty
list check, the step loop, then the final RGBA-to-RGB conversion. -/
def _apply_processing_steps (processed_image : Bitmap)
    (transformations : List Step) : List String × Except PyErr Bitmap :=
  if transformations = [] then ([], .error .noTransformationsDefined)
  else
    let r := processingLoop processed_image transformations
    match r.2 with
    | .ok image =>
      (r.1, .ok (if image.mode = .RGBA then PILconvert image .RGB else image))
    | .error e => (r.1, .error e)

/-- `_save_result_image(...)`: encode to the target format into a buffer,
then create the `TransformedImage` row (evaluating
`extract_metadata(image=processed_image)` for its `metadata` field); on
success the new row's primary key is returned. -/
def _save_result_image (processed_image : Bitmap) (image_format : String)
    (newImageId : Nat) : Except PyErr Nat :=
  match encodeResult processed_image.mode image_format with
  | .error e => .error e
  | .ok () =>
    match extract_metadata image_format processed_image with
    | .error e => .error e
    | .ok _metadata => .ok newImageId

/-! ## The orchestrator (`apply_transformations`) -/

/-- The fixed error message `_get_task_and_set_in_progress` persists for an
empty transformation list (distinct from `str(NoTransformationsDefined())`). -/
def noTransformationsTaskMsg : String := "No transformations were defined for task."

/-- `apply_transformations(task_id)`.  Returns the finally persisted task
row (`none` when the id resolved to no task), the operations whose
transform function had been invoked, and the call outcome (`.error e`
models the exception re-raised to the queue).

Control flow follows the source: fetch + validate + set `IN_PROGRESS`
(`_get_task_and_set_in_progress`), cache probe (note
`task.original_image.id` raises `AttributeError` on a null reference before
the cache is consulted), cache-hit short circuit, load, transform chain,
save, link, best-effort cache write, `SUCCESS`; the top-level handler
records `str(e)` and `FAILED` for any exception raised after `task` was
assigned, then re-raises. -/
def apply_transformations (env : Env) :
    Option Task × List String × Except PyErr Unit :=
  match env.task with
  | none => (none, [], .error .taskNotFound)
  | some task₀ =>
    if task₀.transformations = [] then
      let failed : Task :=
        { task₀ with status := .failed, error_message := some noTransformationsTaskMsg }
      (some failed, [], .error .noTransformationsDefined)
    else
      let task : Task := { task₀ with status := .in_progress }
      match task.original_image with
      | none =>
        let e : PyErr := .attributeError "NoneType object has no attribute id"
        (some { task with status := .failed, error_message := some (errStr e) },
         [], .error e)
      | some src =>
        match get_transformed_image_id_from_cache env.cacheGet (toString src.id)
            task.transformations task.format with
        | .error e =>
          (some { task with status := .failed, error_message := some (errStr e) },
           [], .error e)
        | .ok (some cached_image_id) =>
          (some { task with result_image := some cached_image_id, status := .success },
           [], .ok ())
        | .ok none =>
          match _load_image_and_determine_format task with
          | .error e =>
            (some { task with status := .failed, error_message := some (errStr e) },
             [], .error e)
          | .ok (image, image_format, original_image_instance) =>
            match _apply_processing_steps image task.transformations with
            | (tr, .error e) =>
              (some { task with status := .failed, error_message := some (errStr e) },
               tr, .error e)
            | (tr, .ok processed_image) =>
              match _save_result_image processed_image image_format env.newImageId with
              | .error e =>
                (some { task with status := .failed, error_message := some (errStr e) },
                 tr, .error e)
              | .ok result_id =>
                let task : Task := { task with result_image := some result_id }
                let _ := set_transformed_image_id_to_cache env.cacheSet
                  (toString original_image_instance.id) task.transformations
                  task.format result_id
                (some { task with status := .success }, tr, .ok ())

/-! ## Order lemmas for the key comparison -/

theorem lexLt_irrefl : ∀ l : List Nat, lexLt l l = false
  | [] => rfl
  | a :: as => by simp [lexLt, lexLt_irrefl as]

theorem lexLt_asymm : ∀ {a b : List Nat}, lexLt a b = true → lexLt b a = false
  | [], [], h => by simp [lexLt] at h
  | [], _ :: _, _ => rfl
  | _ :: _, [], h => by simp [lexLt] at h
  | x :: xs, y :: ys, h => by
    simp only [lexLt] at h ⊢
    by_cases h1 : x < y
    · have h2 : ¬ y < x := by omega
      simp [h1, h2]
    · by_cases h2 : y < x
      · simp [h1, h2] at h
      · simp only [if_neg h1, if_neg h2] at h
        simp [h1, h2, lexLt_asymm h]

theorem lexLt_eq_of_not :
    ∀ {a b : List Nat}, lexLt a b = false → lexLt b a = false → a = b
  | [], [], _, _ => rfl
  | [], _ :: _, h, _ => by simp [lexLt] at h
  | _ :: _, [], _, h => by simp [lexLt] at h
  | x :: xs, y :: ys, h, h' => by
    simp only [lexLt] at h h'
    by_cases h1 : x < y
    · simp [h1] at h
    · by_cases h2 : y < x
      · simp [h1, h2] at h'
      · have hxy : x = y := by omega
        simp only [if_neg h1, if_neg h2] at h h'
        rw [hxy, lexLt_eq_of_not h h']

theorem lexLt_trans :
    ∀ {a b c : List Nat}, lexLt a b = true → lexLt b c = true → lexLt a c = true
  | [], _ :: _, _ :: _, _, _ => rfl
  | [], [], _, h, _ => by simp [lexLt] at h
  | [], _ :: _, [], _, h' => by simp [lexLt] at h'
  | _ :: _, [], _, h, _ => by simp [lexLt] at h
  | _ :: _, _ :: _, [], _, h' => by simp [lexLt] at h'
  | x :: xs, y :: ys, z :: zs, h, h' => by
    simp only [lexLt] at h h' ⊢
    by_cases h1 : x < y <;> by_cases h2 : y < z
    · have h3 : x < z := by omega
      simp [h3]
    · by_cases h3 : z < y
      · simp [h2, h3] at h'
      · have hyz : y = z := by omega
        subst hyz
        simp [h1]
    · by_cases h3 : y < x
      · simp [h1, h3] at h
      · have hxy : x = y := by omega
        subst hxy
        simp [h2]
    · by_cases h3 : y < x
      · simp [h1, h3] at h
      · by_cases h4 : z < y
        · simp [h2, h4] at h'
        · have hxy : x = y := by omega
          subst hxy
          have hyz : x = z := by omega
          subst hyz
          simp only [if_neg h1, if_neg h3] at h
          simp only [if_neg h2, if_neg h4] at h'
          simp [h1, lexLt_trans h h']

theorem keyLe_total (s t : String) : keyLe s t = true ∨ keyLe t s = true := by
  unfold keyLe
  cases h : lexLt (codes t) (codes s)
  · left; rfl
  · right
    rw [lexLt_asymm h]
    rfl

theorem char_toNat_inj {a b : Char} (h : a.toNat = b.toNat) : a = b :=
  Char.ofNat_toNat a ▸ Char.ofNat_toNat b ▸ h ▸ rfl

theorem map_toNat_inj : ∀ {l m : List Char},
    l.map Char.toNat = m.map Char.toNat → l = m
  | [], [], _ => rfl
  | [], _ :: _, h => by simp at h
  | _ :: _, [], h => by simp at h
  | a :: l, b :: m, h => by
    simp only [List.map_cons, List.cons.injEq] at h
    rw [char_toNat_inj h.1, map_toNat_inj h.2]

theorem codes_inj : ∀ {s t : String}, codes s = codes t → s = t := by
  intro s t h
  cases s with
  | mk l =>
    cases t with
    | mk m =>
      unfold codes at h
      simp only at h
      rw [map_toNat_inj h]

theorem keyLe_antisymm {s t : String} (h1 : keyLe s t = true)
    (h2 : keyLe t s = true) : s = t := by
  unfold keyLe at h1 h2
  simp only [Bool.not_eq_true'] at h1 h2
  exact codes_inj (lexLt_eq_of_not h2 h1)

theorem keyLe_trans {s t u : String} (h1 : keyLe s t = true)
    (h2 : keyLe t u = true) : keyLe s u = true := by
  unfold keyLe at h1 h2 ⊢
  simp only [Bool.not_eq_true'] at h1 h2 ⊢
  cases h : lexLt (codes u) (codes s)
  · rfl
  · exfalso
    cases h3 : lexLt (codes t) (codes u) with
    | true => simp [lexLt_trans h3 h] at h1
    | false =>
      have : codes t = codes u := lexLt_eq_of_not h3 h2
      rw [this] at h1
      simp_all

theorem keyLe_of_not {s t : String} (h : keyLe s t = false) : keyLe t s = true := by
  rcases keyLe_total s t with h' | h'
  · rw [h'] at h; cases h
  · exact h'

theorem keyLe_asymm_of_ne {s t : String} (hne : s ≠ t) (h : keyLe s t = true) :
    keyLe t s = false := by
  cases h' : keyLe t s
  · rfl
  · exact absurd (keyLe_antisymm h h') hne

/-! ## Sorting a permuted map with distinct keys gives the same list -/

theorem insertSorted_comm (x y : String × Scalar) (hxy : x.1 ≠ y.1) :
    ∀ l : List (String × Scalar),
      insertSorted x (insertSorted y l) = insertSorted y (insertSorted x l)
  | [] => by
    by_cases h1 : keyLe x.1 y.1 = true
    · have h2 := keyLe_asymm_of_ne hxy h1
      simp [insertSorted, h1, h2]
    · have h1' : keyLe x.1 y.1 = false := by simpa using h1
      have h2 := keyLe_of_not h1'
      simp [insertSorted, h1', h2]
  | z :: zs => by
    by_cases hyz : keyLe y.1 z.1 = true <;> by_cases hxz : keyLe x.1 z.1 = true
    · by_cases hxy' : keyLe x.1 y.1 = true
      · have hyx := keyLe_asymm_of_ne hxy hxy'
        simp [insertSorted, hyz, hxz, hxy', hyx]
      · have hxy'' : keyLe x.1 y.1 = false := by simpa using hxy'
        have hyx := keyLe_of_not hxy''
        simp [insertSorted, hyz, hxz, hxy'', hyx]
    · have hxz' : keyLe x.1 z.1 = false := by simpa using hxz
      have hxy'' : keyLe x.1 y.1 = false := by
        cases h' : keyLe x.1 y.1
        · rfl
        · rw [keyLe_trans h' hyz] at hxz'
          cases hxz'
      have hyx := keyLe_of_not hxy''
      simp [insertSorted, hyz, hxz', hxy'', hyx]
    · have hyz' : keyLe y.1 z.1 = false := by simpa using hyz
      have hyx' : keyLe y.1 x.1 = false := by
        cases h' : keyLe y.1 x.1
        · rfl
        · rw [keyLe_trans h' hxz] at hyz'
          cases hyz'
      have hxy' := keyLe_of_not hyx'
      simp [insertSorted, hyz', hxz, hyx', hxy']
    · have hyz' : keyLe y.1 z.1 = false := by simpa using hyz
      have hxz' : keyLe x.1 z.1 = false := by simpa using hxz
      simp [insertSorted, hyz', hxz', insertSorted_comm x y hxy zs]

theorem insertSorted_perm (p : String × Scalar) :
    ∀ l : List (String × Scalar), (insertSorted p l).Perm (p :: l)
  | [] => List.Perm.refl _
  | q :: qs => by
    by_cases h : keyLe p.1 q.1 = true
    · simp [insertSorted, h]
    · have h' : keyLe p.1 q.1 = false := by simpa using h
      simp only [insertSorted, h', Bool.false_eq_true, if_false]
      exact ((insertSorted_perm p qs).cons q).trans (List.Perm.swap p q qs)

theorem sortKvs_perm (l : List (String × Scalar)) : (sortKvs l).Perm l := by
  induction l with
  | nil => exact List.Perm.refl _
  | cons p ps ih =>
    exact (insertSorted_perm p (sortKvs ps)).trans (ih.cons p)

/-- Sorting is invariant under permutation of the entries, provided the keys
are distinct (which they are for a Python dict). -/
theorem sortKvs_congr :
    ∀ {l₁ l₂ : List (String × Scalar)}, l₁.Perm l₂ →
      (l₁.map Prod.fst).Nodup → sortKvs l₁ = sortKvs l₂ := by
  intro l₁ l₂ h
  induction h with
  | nil => intro _; rfl
  | cons x _ ih =>
    intro hnd
    simp only [List.map_cons, List.nodup_cons] at hnd
    simp only [sortKvs, ih hnd.2]
  | swap x y l =>
    intro hnd
    simp only [List.map_cons, List.nodup_cons, List.mem_cons] at hnd
    have : y.1 ≠ x.1 := fun he => hnd.1 (Or.inl he)
    simp only [sortKvs]
    exact insertSorted_comm y x this (sortKvs l)
  | trans h₁ _ ih₁ ih₂ =>
    intro hnd
    rw [ih₁ hnd]
    exact ih₂ (((h₁.map Prod.fst).nodup_iff).mp hnd)

/-! ## Serialization congruence and failure propagation -/

/-- Two step descriptors denoting the same Python value: equal operation
name and parameter maps equal up to entry order (a dict's keys are
distinct; only their insertion order can differ). -/
def StepEquiv (s₁ s₂ : Step) : Prop :=
  s₁.operation = s₂.operation ∧ s₁.params.Perm s₂.params ∧
    (s₁.params.map Prod.fst).Nodup

theorem serializeParams_congr {p₁ p₂ : List (String × Scalar)}
    (h : p₁.Perm p₂) (hnd : (p₁.map Prod.fst).Nodup) :
    serializeParams p₁ = serializeParams p₂ := by
  unfold serializeParams
  rw [sortKvs_congr h hnd]

theorem serializeStep_congr {s₁ s₂ : Step} (h : StepEquiv s₁ s₂) :
    serializeStep s₁ = serializeStep s₂ := by
  obtain ⟨hop, hperm, hnd⟩ := h
  unfold serializeStep
  rw [hop, serializeParams_congr hperm hnd]

theorem serializeSteps_congr :
    ∀ {ts₁ ts₂ : List Step}, List.Forall₂ StepEquiv ts₁ ts₂ →
      serializeSteps ts₁ = serializeSteps ts₂ := by
  intro ts₁ ts₂ h
  induction h with
  | nil => rfl
  | cons hstep _ ih => simp only [serializeSteps, serializeStep_congr hstep, ih]

theorem serializeTransformations_congr {ts₁ ts₂ : List Step}
    (h : List.Forall₂ StepEquiv ts₁ ts₂) :
    serializeTransformations ts₁ = serializeTransformations ts₂ := by
  unfold serializeTransformations
  rw [serializeSteps_congr h]

theorem serializeKvs_obj {k : String} :
    ∀ {kvs : List (String × Scalar)}, (k, Scalar.obj) ∈ kvs →
      serializeKvs kvs = none := by
  intro kvs h
  induction kvs with
  | nil => cases h
  | cons p rest ih =>
    obtain ⟨k', v⟩ := p
    rcases List.mem_cons.mp h with h | h
    · rw [← h]
      simp [serializeKvs, jsonScalar]
    · simp only [serializeKvs, ih h]
      cases jsonScalar v <;> rfl

theorem serializeParams_obj {p : List (String × Scalar)} {k : String}
    (h : (k, Scalar.obj) ∈ p) : serializeParams p = none := by
  unfold serializeParams
  rw [serializeKvs_obj ((sortKvs_perm p).mem_iff.mpr h)]
  rfl

theorem serializeSteps_obj {s : Step} {k : String} :
    ∀ {ts : List Step}, s ∈ ts → (k, Scalar.obj) ∈ s.params →
      serializeSteps ts = none := by
  intro ts hs hk
  induction ts with
  | nil => cases hs
  | cons t rest ih =>
    rcases List.mem_cons.mp hs with h | h
    · have : serializeStep t = none := by
        rw [← h]
        unfold serializeStep
        rw [serializeParams_obj hk]
        rfl
      simp [serializeSteps, this]
    · simp only [serializeSteps, ih h]
      cases serializeStep t <;> rfl

/-! ## Claim C4 -/

/-- A concrete crop step (both orderings of its parameter map are exercised
elsewhere). -/
def cropStep : Step :=
  ⟨"crop", [("height", .int 50), ("width", .int 50), ("x", .int 0), ("y", .int 0)]⟩

/-- A concrete rotate step. -/
def rotateStep : Step := ⟨"rotate", [("degrees", .int 90)]⟩

/-- C4: `generate_transformation_cache_key` is insensitive to the insertion
order of each step's parameter map (any two transformation lists equal up
to such reordering hash identically, for every source id and format),
while the order of the transformation list itself is significant (the
concrete swapped list hashes differently) and the target format is part of
the key (JPEG vs PNG differ); a non-serializable parameter value yields no
key at all. -/
theorem c4_cache_key_determinism :
    (∀ (id : String) (fmt : Option String) (ts₁ ts₂ : List Step),
        List.Forall₂ StepEquiv ts₁ ts₂ →
        generate_transformation_cache_key id ts₁ fmt
          = generate_transformation_cache_key id ts₂ fmt) ∧
    generate_transformation_cache_key "123" [cropStep, rotateStep] (some "JPEG")
      ≠ generate_transformation_cache_key "123" [rotateStep, cropStep] (some "JPEG") ∧
    generate_transformation_cache_key "123" [cropStep, rotateStep] (some "JPEG")
      ≠ generate_transformation_cache_key "123" [cropStep, rotateStep] (some "PNG") ∧
    (∀ (id : String) (fmt : Option String) (ts : List Step) (s : Step) (k : String),
        s ∈ ts → (k, Scalar.obj) ∈ s.params →
        generate_transformation_cache_key id ts fmt = none) := by
  refine ⟨?_, by decide, by decide, ?_⟩
  · intro id fmt ts₁ ts₂ h
    unfold generate_transformation_cache_key
    rw [serializeTransformations_congr h]
  · intro id fmt ts s k hs hk
    unfold generate_transformation_cache_key
    unfold serializeTransformations
    rw [serializeSteps_obj hs hk]
    rfl

/-- Witness for C4: the two insertion orders of `(a: 1, b: 2)` give the same
key, and an unserializable parameter yields no key, at concrete inputs. -/
theorem c4_cache_key_determinism_witness :
    generate_transformation_cache_key "123"
        [⟨"resize", [("a", .int 1), ("b", .int 2)]⟩] (some "JPEG")
      = generate_transformation_cache_key "123"
        [⟨"resize", [("b", .int 2), ("a", .int 1)]⟩] (some "JPEG") ∧
    generate_transformation_cache_key "123"
        [⟨"resize", [("r", Scalar.obj)]⟩] (some "JPEG") = none :=
  ⟨c4_cache_key_determinism.1 "123" (some "JPEG") _ _
      (List.Forall₂.cons ⟨rfl, by decide, by decide⟩ List.Forall₂.nil),
   c4_cache_key_determinism.2.2.2 "123" (some "JPEG") _
      ⟨"resize", [("r", Scalar.obj)]⟩ "r" (by decide) (by decide)⟩

/-! ## Claim C10 -/

/-- C10: an empty-string format and an absent (`None`) format produce the
same cache key for every source id and transformation list — both are
falsy in `image_format.lower() if image_format else "None"` and collapse
to the fixed `"None"` sentinel. -/
theorem c10_falsy_format_collapse (id : String) (ts : List Step) :
    generate_transformation_cache_key id ts (some "")
      = generate_transformation_cache_key id ts none := by
  unfold generate_transformation_cache_key
  cases serializeTransformations ts <;> rfl

/-! ## Claim C2 -/

/-- C2: whenever the task exists with a non-empty transformation list and
the cache lookup for its key returns a cached result id, the run sets the
task's result reference to the cached id, marks it SUCCESS, persists that
state and returns successfully with no transform function invoked. -/
theorem c2_cache_hit (env : Env) (task₀ : Task) (src : SourceImage) (cid : Nat)
    (htask : env.task = some task₀)
    (hne : task₀.transformations ≠ [])
    (horig : task₀.original_image = some src)
    (hget : get_transformed_image_id_from_cache env.cacheGet (toString src.id)
        task₀.transformations task₀.format = .ok (some cid)) :
    apply_transformations env
      = (some { task₀ with result_image := some cid, status := .success },
         [], .ok ()) := by
  unfold apply_transformations
  rw [htask]
  simp only [if_neg hne, horig, hget]

/-- Witness for C2: a concrete cache-hit run. -/
def taskC2 : Task :=
  { original_image := some { id := 4, bitmap := some ⟨100, 100, .RGB⟩, metadata := none },
    result_image := none, status := .pending,
    transformations := [⟨"flip", []⟩], format := some "PNG", error_message := none }

/-- The environment for the C2 witness: the cache holds id 5. -/
def envC2 : Env :=
  { task := some taskC2, cacheGet := .value (some 5), cacheSet := .ok, newImageId := 9 }

theorem c2_cache_hit_witness :
    apply_transformations envC2
      = (some { taskC2 with result_image := some 5, status := .success },
         [], .ok ()) :=
  c2_cache_hit envC2 taskC2
    { id := 4, bitmap := some ⟨100, 100, .RGB⟩, metadata := none } 5
    rfl (by decide) rfl (by decide)

/-! ## Claim C1 -/

/-- C1 (amended): `apply_transformations` performs no terminal-status
check: whenever the id resolves to a task, the run rewrites the task's
state and every run ends with the persisted status SUCCESS or FAILED —
whatever status (PENDING, or a terminal SUCCESS/FAILED/CANCELLED under
at-least-once redelivery) the task had when picked up. -/
theorem c1_amended (env : Env) (t' : Task) (tr : List String)
    (res : Except PyErr Unit)
    (h : apply_transformations env = (some t', tr, res)) :
    t'.status = .success ∨ t'.status = .failed := by
  unfold apply_transformations at h
  dsimp only at h
  repeat' split at h
  all_goals try simp at h
  all_goals obtain ⟨h1, h2, h3⟩ := h
  all_goals subst h1
  all_goals simp

/-- A CANCELLED task picked up again (with a cached result available). -/
def taskC1 : Task :=
  { original_image := some { id := 11, bitmap := some ⟨100, 100, .RGB⟩, metadata := none },
    result_image := none, status := .cancelled,
    transformations := [⟨"mirror", []⟩], format := some "PNG", error_message := none }

/-- The redelivery environment for the C1 counterexample. -/
def envC1 : Env :=
  { task := some taskC1, cacheGet := .value (some 6), cacheSet := .ok, newImageId := 8 }

/-- C1 counterexample: executing a task already observed as CANCELLED does
not no-op — the run changes its status (to SUCCESS here) and its result
reference, contradicting the claimed terminal-state invariant. -/
theorem c1_counterexample :
    taskC1.status = .cancelled ∧
    (apply_transformations envC1).1.map Task.status = some .success ∧
    (apply_transformations envC1).1.map Task.result_image = some (some 6) := by
  decide

/-- The task state `apply_transformations envC1` persists. -/
def tC1final : Task := { taskC1 with result_image := some 6, status := .success }

/-- Witness for the amended C1 at the concrete redelivered task. -/
theorem c1_amended_witness : tC1final.status = .success ∨ tC1final.status = .failed :=
  c1_amended envC1 tC1final [] (.ok ()) (by decide)

/-! ## Claim C3 -/

/-- C3: for every error raised after the task was fetched, the persisted
task ends FAILED with the error's cause description recorded in its
error-message field (the fixed validation message in the
empty-transformations case, `str(e)` otherwise), the result reference
stays null (given it was null at pickup, as for every task created
PENDING), and the error is re-raised to the caller (it is the `.error`
outcome). -/
theorem c3_failure_propagation (env : Env) (task₀ t' : Task)
    (tr : List String) (e : PyErr)
    (htask : env.task = some task₀) (hres : task₀.result_image = none)
    (h : apply_transformations env = (some t', tr, .error e)) :
    t'.status = .failed ∧ t'.result_image = none ∧
      (t'.error_message = some (errStr e) ∨
        (e = .noTransformationsDefined ∧
          t'.error_message = some noTransformationsTaskMsg)) := by
  unfold apply_transformations at h
  rw [htask] at h
  dsimp only at h
  repeat' split at h
  all_goals try simp at h
  all_goals obtain ⟨h1, h2, h3⟩ := h
  all_goals subst h1
  all_goals try subst h3
  all_goals simp_all

/-- A task whose only step fails (crop out of bounds). -/
def taskC3 : Task :=
  { original_image := some { id := 3, bitmap := some ⟨100, 100, .RGB⟩, metadata := none },
    result_image := none, status := .pending,
    transformations :=
      [⟨"crop", [("x", .int 90), ("y", .int 90), ("width", .int 50), ("height", .int 50)]⟩],
    format := some "PNG", error_message := none }

/-- The environment for the C3 witness (cache miss). -/
def envC3 : Env :=
  { task := some taskC3, cacheGet := .value none, cacheSet := .ok, newImageId := 2 }

/-- The wrapped error the C3 witness run raises. -/
def eC3 : PyErr := .transformationFailed "Invalid dimensions for cropping."

/-- The task state the C3 witness run persists. -/
def tC3final : Task := { taskC3 with status := .failed, error_message := some (errStr eC3) }

theorem c3_failure_propagation_witness :
    tC3final.status = .failed ∧ tC3final.result_image = none ∧
      (tC3final.error_message = some (errStr eC3) ∨
        (eC3 = .noTransformationsDefined ∧
          tC3final.error_message = some noTransformationsTaskMsg)) :=
  c3_failure_propagation envC3 taskC3 tC3final ["crop"] eC3 rfl rfl (by decide)

/-! ## Claim C5 -/

/-- C5 (amended): cache-failure tolerance holds only for the write side.
A `cache.set` failure is swallowed (`set_transformed_image_id_to_cache`
always returns normally), but a `cache.get` failure is unguarded: it
propagates out of the lookup, fails the enclosing task (FAILED with the
backend error recorded) and is re-raised to the caller. -/
theorem c5_amended :
    (∀ (o : CacheSetOutcome) (sid : String) (ts : List Step)
        (fmt : Option String) (rid : Nat),
        set_transformed_image_id_to_cache o sid ts fmt rid = .ok ()) ∧
    (∀ (env : Env) (task₀ : Task) (src : SourceImage),
        env.task = some task₀ → task₀.transformations ≠ [] →
        task₀.original_image = some src → env.cacheGet = .raise →
        (generate_transformation_cache_key (toString src.id) task₀.transformations
            task₀.format).isSome →
        apply_transformations env
          = (some { task₀ with status := .failed, error_message := some (errStr .cacheBackendError) },
             [], .error .cacheBackendError)) := by
  constructor
  · intro o sid ts fmt rid
    unfold set_transformed_image_id_to_cache
    cases generate_transformation_cache_key sid ts fmt <;> cases o <;> rfl
  · intro env task₀ src htask hne horig hraise hkey
    have hget : get_transformed_image_id_from_cache env.cacheGet (toString src.id)
        task₀.transformations task₀.format = .error .cacheBackendError := by
      unfold get_transformed_image_id_from_cache
      obtain ⟨k, hk⟩ := Option.isSome_iff_exists.mp hkey
      rw [hk, hraise]
    unfold apply_transformations
    rw [htask]
    simp only [if_neg hne, horig, hget]

/-- A pending task picked up while the cache backend is down. -/
def taskC5 : Task :=
  { original_image := some { id := 21, bitmap := some ⟨100, 100, .RGB⟩, metadata := none },
    result_image := none, status := .pending,
    transformations := [⟨"grayscale-later", []⟩], format := some "PNG", error_message := none }

/-- The environment for C5: `cache.get` raises. -/
def envC5 : Env :=
  { task := some taskC5, cacheGet := .raise, cacheSet := .ok, newImageId := 14 }

/-- C5 counterexample: a cache-lookup failure is propagated to the caller
and fails the enclosing task, contradicting "never fails the enclosing
task and is never propagated". -/
theorem c5_counterexample :
    (apply_transformations envC5).2.2 = .error .cacheBackendError ∧
    (apply_transformations envC5).1.map Task.status = some .failed := by
  decide

theorem c5_amended_witness :
    set_transformed_image_id_to_cache .raise "1" [] (some "JPEG") 5 = .ok () ∧
    apply_transformations envC5
      = (some { taskC5 with status := .failed, error_message := some (errStr .cacheBackendError) },
         [], .error .cacheBackendError) :=
  ⟨c5_amended.1 .raise "1" [] (some "JPEG") 5,
   c5_amended.2 envC5 taskC5
     { id := 21, bitmap := some ⟨100, 100, .RGB⟩, metadata := none }
     rfl (by decide) rfl rfl (by decide)⟩

/-! ## Claim C6 -/

/-- A concrete 100×100 RGB bitmap. -/
def img100 : Bitmap := ⟨100, 100, .RGB⟩

/-- C6 (amended): `crop` rejects a box whose right or lower edge exceeds the
source bounds (ValueError, surfaced at the task level wrapped in
TransformationFailed); within bounds a non-negative width and height always
succeed with a result of exactly that size — including the degenerate
`width = 0`/`height = 0`, which the code does NOT reject; a negative width
or height within bounds fails only through the bitmap library's reversed-
coordinate check.  The two concrete boundary examples behave as claimed. -/
theorem c6_amended :
    (∀ (img : Bitmap) (x y w h : Int),
        (x + w > (img.width : Int) ∨ y + h > (img.height : Int)) →
        crop img x y w h = .error (.valueError "Invalid dimensions for cropping.")) ∧
    (∀ (img : Bitmap) (x y w h : Int),
        ¬(x + w > (img.width : Int) ∨ y + h > (img.height : Int)) →
        0 ≤ w → 0 ≤ h →
        crop img x y w h = .ok ⟨w.toNat, h.toNat, img.mode⟩) ∧
    (∀ (img : Bitmap) (x y w h : Int),
        ¬(x + w > (img.width : Int) ∨ y + h > (img.height : Int)) →
        w < 0 →
        crop img x y w h = .error (.valueError "Coordinate right is less than left")) ∧
    (∀ (img : Bitmap) (x y w h : Int),
        ¬(x + w > (img.width : Int) ∨ y + h > (img.height : Int)) →
        0 ≤ w → h < 0 →
        crop img x y w h = .error (.valueError "Coordinate lower is less than upper")) ∧
    crop img100 90 90 50 50 = .error (.valueError "Invalid dimensions for cropping.") ∧
    crop img100 10 10 50 50 = .ok ⟨50, 50, .RGB⟩ := by
  refine ⟨?_, ?_, ?_, ?_, by decide, by decide⟩
  · intro img x y w h hb
    unfold crop
    rw [if_pos hb]
  · intro img x y w h hb hw hh
    unfold crop PILcrop
    rw [if_neg hb, if_neg (by omega), if_neg (by omega)]
    have h1 : x + w - x = w := by omega
    have h2 : y + h - y = h := by omega
    rw [h1, h2]
  · intro img x y w h hb hw
    unfold crop PILcrop
    rw [if_neg hb, if_pos (by omega)]
  · intro img x y w h hb hw hh
    unfold crop PILcrop
    rw [if_neg hb, if_neg (by omega), if_pos (by omega)]

/-- C6 counterexample: `crop` with `width = 0` does not fail — the guard
only checks the upper bounds and the bitmap library accepts an empty box,
so a degenerate 0×50 image is produced, contradicting "fails ... if
width≤0". -/
theorem c6_counterexample :
    crop img100 10 10 0 50 = .ok ⟨0, 50, .RGB⟩ := by decide

theorem c6_amended_witness :
    crop img100 90 90 50 50 = .error (.valueError "Invalid dimensions for cropping.") ∧
    crop img100 20 20 30 40 = .ok ⟨30, 40, .RGB⟩ :=
  ⟨c6_amended.1 img100 90 90 50 50 (by decide),
   c6_amended.2.1 img100 20 20 30 40 (by decide) (by decide) (by decide)⟩

/-! ## Claim C7 -/

theorem processingLoop_append (rest : List Step) :
    ∀ (pre : List Step) (img img' : Bitmap) (tr : List String),
      processingLoop img pre = (tr, .ok img') →
      processingLoop img (pre ++ rest)
        = (tr ++ (processingLoop img' rest).1, (processingLoop img' rest).2)
  | [], img, img', tr, hpre => by
    simp only [processingLoop, Prod.mk.injEq] at hpre
    obtain ⟨h1, h2⟩ := hpre
    injection h2 with h2
    subst h1
    subst h2
    simp [List.nil_append]
  | s :: ss, img, img', tr, hpre => by
    simp only [processingLoop, List.cons_append] at hpre ⊢
    by_cases hc : TRANSFORMATION_MAP_keys.contains s.operation = true
    · rw [if_pos hc] at hpre ⊢
      cases hcall : callTransformFunc s.operation img s.params with
      | error e =>
        rw [hcall] at hpre
        simp at hpre
      | ok img₁ =>
        rw [hcall] at hpre
        simp only [Prod.mk.injEq] at hpre
        obtain ⟨h1, h2⟩ := hpre
        have hl : processingLoop img₁ ss = ((processingLoop img₁ ss).1, .ok img') := by
          rw [← h2]
        dsimp only
        simp only [List.append_eq]
        rw [processingLoop_append rest ss img₁ img' (processingLoop img₁ ss).1 hl]
        subst h1
        simp
    · rw [if_neg hc] at hpre
      simp at hpre
  termination_by pre => pre.length

theorem processingLoop_trace :
    ∀ (pre : List Step) (img img' : Bitmap) (tr : List String),
      processingLoop img pre = (tr, .ok img') → tr = pre.map Step.operation
  | [], img, img', tr, hpre => by
    simp only [processingLoop, Prod.mk.injEq] at hpre
    simp [← hpre.1]
  | s :: ss, img, img', tr, hpre => by
    simp only [processingLoop] at hpre
    by_cases hc : TRANSFORMATION_MAP_keys.contains s.operation = true
    · rw [if_pos hc] at hpre
      cases hcall : callTransformFunc s.operation img s.params with
      | error e =>
        rw [hcall] at hpre
        simp at hpre
      | ok img₁ =>
        rw [hcall] at hpre
        simp only [Prod.mk.injEq] at hpre
        obtain ⟨h1, h2⟩ := hpre
        have hl : processingLoop img₁ ss = ((processingLoop img₁ ss).1, .ok img') := by
          rw [← h2]
        rw [← h1, List.map_cons]
        rw [processingLoop_trace ss img₁ img' (processingLoop img₁ ss).1 hl]
    · rw [if_neg hc] at hpre
      simp at hpre
  termination_by pre => pre.length

/-- C7 (amended): a transformation list containing an unknown operation
fails with `InvalidTransformation` at the first unknown operation,
provided the steps before it execute without error — and those preceding
steps ARE executed (their transform functions run, in list order) before
the failure; no step from the unknown operation onward is executed, and
(by C3) nothing is persisted as a result. -/
theorem c7_amended (img img' : Bitmap) (tr : List String)
    (pre post : List Step) (s : Step)
    (hop : TRANSFORMATION_MAP_keys.contains s.operation = false)
    (hpre : processingLoop img pre = (tr, .ok img')) :
    _apply_processing_steps img (pre ++ s :: post)
      = (tr, .error (.invalidTransformation s.operation)) ∧
      tr = pre.map Step.operation := by
  have happ := processingLoop_append (s :: post) pre img img' tr hpre
  have hloop : processingLoop img' (s :: post)
      = ([], .error (.invalidTransformation s.operation)) := by
    simp only [processingLoop]
    rw [if_neg (by rw [hop]; simp)]
  rw [hloop] at happ
  refine ⟨?_, processingLoop_trace pre img img' tr hpre⟩
  unfold _apply_processing_steps
  rw [if_neg (by simp), happ]
  simp

/-- A task mixing one valid and one unknown operation. -/
def taskC7 : Task :=
  { original_image := some { id := 31, bitmap := some ⟨100, 100, .RGB⟩, metadata := none },
    result_image := none, status := .pending,
    transformations := [⟨"resize", [("width", .int 50), ("height", .int 50)]⟩, ⟨"exec", []⟩],
    format := some "PNG", error_message := none }

/-- The environment for C7 (cache miss). -/
def envC7 : Env :=
  { task := some taskC7, cacheGet := .value none, cacheSet := .ok, newImageId := 17 }

/-- C7 counterexample: on `[resize, exec]` the resize step IS executed
before the unknown operation aborts the chain, contradicting "no step of
the transformation list is executed" (the task does fail with
`InvalidTransformation`). -/
theorem c7_counterexample :
    (apply_transformations envC7).2.1 = ["resize"] ∧
    (apply_transformations envC7).2.2 = .error (.invalidTransformation "exec") ∧
    ["resize"] ≠ ([] : List String) := by
  decide

theorem c7_amended_witness :
    _apply_processing_steps ⟨100, 100, .RGB⟩
        ([⟨"resize", [("width", .int 50), ("height", .int 50)]⟩] ++ ⟨"exec", []⟩ :: [])
      = (["resize"], .error (.invalidTransformation "exec")) ∧
      ["resize"] = [⟨"resize", [("width", .int 50), ("height", .int 50)]⟩].map Step.operation :=
  c7_amended ⟨100, 100, .RGB⟩ ⟨50, 50, .RGB⟩ ["resize"]
    [⟨"resize", [("width", .int 50), ("height", .int 50)]⟩] [] ⟨"exec", []⟩
    (by decide) (by decide)

/-! ## Claim C8 -/

/-- C8 (the code evaluated at the failing input): `rotate` calls the bitmap
rotate primitive with the default `expand=False`, so the canvas keeps the
input dimensions for EVERY angle; in particular a 100×100 bitmap rotated by
45 degrees stays 100×100 — far below the ≥142 pixels needed to contain the
rotated content — so content is cropped, contrary to the claim. -/
theorem c8_rotate_no_expand :
    (∀ (img : Bitmap) (degrees : Int),
        (rotate img degrees).width = img.width ∧
        (rotate img degrees).height = img.height) ∧
    rotate ⟨100, 100, .RGB⟩ 45 = ⟨100, 100, .RGB⟩ ∧
    (rotate ⟨100, 100, .RGB⟩ 45).width < 142 :=
  ⟨fun _ _ => ⟨rfl, rfl⟩, rfl, by decide⟩

/-! ## Claim C9 -/

/-- C9 (amended): for an RGBA source bitmap, `watermark` succeeds and keeps
the RGBA mode, the pipeline then converts the final RGBA bitmap to RGB
before encoding, and the JPEG encoder accepts the converted result — so
the watermark-then-JPEG chain never hits an encode error.  (For a non-RGBA
source — e.g. a decoded JPEG, which opens as RGB — `watermark` itself
fails, see the counterexample.) -/
theorem c9_amended (img : Bitmap) (text : String)
    (hmode : img.mode = .RGBA) (htext : text ≠ "") :
    watermark img text = .ok ⟨img.width, img.height, .RGBA⟩ ∧
    _apply_processing_steps img [⟨"watermark", [("watermark_text", .str text)]⟩]
      = (["watermark"], .ok ⟨img.width, img.height, .RGB⟩) ∧
    encodeResult .RGB "JPEG" = .ok () := by
  have hw : watermark img text = .ok ⟨img.width, img.height, .RGBA⟩ := by
    unfold watermark
    rw [if_neg htext]
    unfold PILalphaComposite PILrotate PILnew
    rw [if_neg (by simp [hmode]), if_neg (by simp)]
  refine ⟨hw, ?_, by decide⟩
  unfold _apply_processing_steps
  rw [if_neg (by simp)]
  have hcall : callTransformFunc "watermark" img [("watermark_text", .str text)]
      = .ok ⟨img.width, img.height, .RGBA⟩ := by
    rw [← hw]
    rfl
  have h1 : processingLoop img [⟨"watermark", [("watermark_text", .str text)]⟩]
      = (["watermark"], .ok ⟨img.width, img.height, .RGBA⟩) := by
    simp only [processingLoop]
    rw [hcall]
    rfl
  rw [h1]
  simp [PILconvert]

/-- A JPEG-backed task: the decoded source is RGB, and watermark is the
only step. -/
def taskC9 : Task :=
  { original_image := some { id := 41, bitmap := some ⟨100, 100, .RGB⟩, metadata := none },
    result_image := none, status := .pending,
    transformations := [⟨"watermark", [("watermark_text", .str "Test")]⟩],
    format := some "JPEG", error_message := none }

/-- The environment for C9 (cache miss). -/
def envC9 : Env :=
  { task := some taskC9, cacheGet := .value none, cacheSet := .ok, newImageId := 19 }

/-- C9 counterexample: on an RGB source bitmap (the decoded form of a JPEG
original) `watermark` itself fails — `Image.alpha_composite` requires RGBA
inputs — so the watermark-then-encode chain fails the task instead of
succeeding, contradicting "for every valid source bitmap". -/
theorem c9_counterexample :
    watermark ⟨100, 100, .RGB⟩ "Test" = .error (.valueError "image has wrong mode") ∧
    (apply_transformations envC9).1.map Task.status = some .failed := by
  decide

theorem c9_amended_witness :
    watermark ⟨100, 100, .RGBA⟩ "Test" = .ok ⟨100, 100, .RGBA⟩ ∧
    _apply_processing_steps ⟨100, 100, .RGBA⟩
        [⟨"watermark", [("watermark_text", .str "Test")]⟩]
      = (["watermark"], .ok ⟨100, 100, .RGB⟩) ∧
    encodeResult .RGB "JPEG" = .ok () :=
  c9_amended ⟨100, 100, .RGBA⟩ "Test" rfl (by decide)

end IPS

/-- Sanity anchor for the hash embedding: the SHA-256 of `"abc"` matches the
published test vector. -/
example :
    IPS.sha256hex (IPS.utf8Bytes "abc")
      = "ba7816bf8f01cfea414140de5dae2223b00361a396177a9cb410ff61f20015ad" := by
  decide
